import Mathlib

/-!
Shallow embedding of the hsup allocator (src/allocator.go).

IPv4 addresses are modelled as their 32-bit big-endian integer value
(a natural number below 2^32); Go uint32 arithmetic is modelled on Nat
with explicit reductions modulo 2^32, and Go int values (uids) as Int,
with the Go conversion uint32(x) modelled as reduction modulo 2^32.
The filesystem is modelled by the outcome of each exclusive-create
attempt, and the math/rand probe sequence by an explicit stream of
draws, so that every code path of the reservation loop is represented.
-/

set_option autoImplicit false

namespace Hsup

/-- A Go net.IPNet with a CIDR mask: the address value and the number of
leading one bits of the mask (what Mask.Size() returns). -/
structure IPNet where
  ip : Nat
  ones : Nat
deriving DecidableEq, Repr

/-- Applying a CIDR mask of p leading ones to a 32-bit address
(ip.Mask(net.CIDRMask(p, 32))): the low 32-p bits are cleared. -/
def maskCIDR (p n : Nat) : Nat := n / 2 ^ (32 - p) * 2 ^ (32 - p)

/-- Go net.IPNet.Contains for a CIDR-masked network: mask the address and
compare with the network address (which is stored already masked). -/
def IPNet.contains (net : IPNet) (addr : Nat) : Bool :=
  maskCIDR net.ones addr == net.ip

/-- src/allocator.go subnetsToSkip: read the base IP as a big-endian uint32,
shift left then right by subnetSize (uint32 shifts, i.e. modulo 2^32) to cut
the first subnetSize bits, then drop the last 2 bits. -/
def subnetsToSkip (baseIP : Nat) (subnetSize : Nat) : Nat :=
  baseIP * 2 ^ subnetSize % 2 ^ 32 / 2 ^ subnetSize / 4

/-- The value uint32(math.Pow(2, float64(30 - subnetSize))) in NewAllocator:
for subnetSize ≤ 30 the float is the exact power of two; for 31 or 32 the
float is 0.5 or 0.25 and the conversion to uint32 truncates to 0. -/
def totalSubnets (subnetSize : Nat) : Nat :=
  if subnetSize ≤ 30 then 2 ^ (30 - subnetSize) else 0

/-- uint32 subtraction (both arguments below 2^32). -/
def sub32 (a b : Nat) : Nat := (2 ^ 32 + a - b) % 2 ^ 32

/-- The allocator state built by NewAllocator (src/allocator.go).
The math/rand source is not a field here: the probe draws it produces are
passed explicitly to the reservation loop. -/
structure Allocator where
  uidsDir : String
  privateSubnet : IPNet
  basePrivateIP : IPNet
  availableSubnets : Nat
  minUID : Int
  maxUID : Int
deriving Repr

/-- 172.16.0.28 with a /12 mask (DefaultPrivateSubnet in src/allocator.go). -/
def DefaultPrivateSubnet : IPNet := ⟨172 * 2 ^ 24 + 16 * 2 ^ 16 + 28, 12⟩

/-- The pure content of NewAllocator: uids directory path
(filepath.Join(workDir, "uids")), the supernet (the input address masked by
its own mask), the base /30 anchor (the unmasked input address), and the
available-subnet accounting. `ip` is the input address as uint32 and `p`
the mask size. -/
def mkAllocator (workDir : String) (ip p : Nat) (minUID maxUID : Int) :
    Allocator where
  uidsDir := workDir ++ "/uids"
  privateSubnet := ⟨maskCIDR p ip, p⟩
  basePrivateIP := ⟨ip, 30⟩
  availableSubnets := sub32 (totalSubnets p) (subnetsToSkip ip p)
  minUID := minUID
  maxUID := maxUID

/-- NewAllocator (src/allocator.go). Its only error returns are I/O ones —
os.MkdirAll, reading the crypto/rand seed, and the binary.Read inside
subnetsToSkip, which cannot fail on a 4-byte IPv4 address — all independent
of the supernet/anchor arithmetic, so the pure model always succeeds: the
source contains no configuration-validation branch. -/
def NewAllocator (workDir : String) (ip p : Nat) (minUID maxUID : Int) :
    Except String Allocator :=
  .ok (mkAllocator workDir ip p minUID maxUID)

/-- shift := uint32(uid - a.minUID) % a.availableSubnets in privateNetForUID:
the Go int difference is first truncated to 32 bits, then reduced modulo the
available subnet count. -/
def uidShift (a : Allocator) (uid : Int) : Nat :=
  ((uid - a.minUID) % (2 ^ 32 : Int)).toNat % a.availableSubnets

/-- The address computed by privateNetForUID before the containment check:
asInt >>= 2; asInt += shift; asInt <<= 2, all on uint32. -/
def derivedIP (a : Allocator) (uid : Int) : Nat :=
  (a.basePrivateIP.ip / 4 + uidShift a uid) % 2 ^ 32 * 4 % 2 ^ 32

/-- Outcome of privateNetForUID: a subnet, the
"assigned IP falls out of the allowed subnet" error return, or the Go
runtime panic raised by % when availableSubnets is 0. -/
inductive NetResult where
  | ok (net : IPNet)
  | err
  | divByZero
deriving DecidableEq, Repr

/-- privateNetForUID (src/allocator.go): derive the shift-th /30 block after
the anchor and check it falls inside the supernet. The returned mask is
a.basePrivateIP.Mask (/30 for constructed allocators). The binary.Read and
binary.Write error branches cannot fire on 4-byte buffers and are omitted. -/
def privateNetForUID (a : Allocator) (uid : Int) : NetResult :=
  if a.availableSubnets = 0 then .divByZero
  else if a.privateSubnet.contains (derivedIP a uid) then
    .ok ⟨derivedIP a uid, a.basePrivateIP.ones⟩
  else .err

/-- Outcome of one probe of the reservation loop, as seen by the code:
the os.OpenFile(file, O_CREATE|O_EXCL, 0600) call either creates the marker
(then f.Close() either succeeds or fails), fails because the marker already
exists, or fails with any other filesystem error (permissions, missing
directory, disk full, ...). -/
inductive AttemptOutcome where
  | ok
  | closeFail (msg : String)
  | exist
  | otherErr (msg : String)
deriving DecidableEq, Repr

/-- The body of allocate's retry loop (src/allocator.go). `env i n` is the
filesystem outcome of attempt number i on candidate n, `draws i` the value
of a.rng.Intn(interval) at attempt i, `i` the current attempt index and
`fuel` the remaining attempts. Mirrors the Go loop exactly: any OpenFile
error — whether "already exists" or not — falls into the single
`if err != nil, continue` branch; a Close error returns immediately; the
exhausted loop returns the "no free number available" error. The second
component counts the OpenFile calls performed. -/
def allocateGo (a : Allocator) (numbersDir : String)
    (env : Nat → Int → AttemptOutcome) (draws : Nat → Nat) :
    Nat → Nat → Except String Int × Nat
  | _, 0 => (.error ("no free number available at " ++ numbersDir), 0)
  | i, fuel + 1 =>
    let n : Int := (draws i : Int) + a.minUID
    match env i n with
    | .ok => (.ok n, 1)
    | .closeFail msg => (.error msg, 1)
    | .exist =>
      let r := allocateGo a numbersDir env draws (i + 1) fuel
      (r.1, r.2 + 1)
    | .otherErr _ =>
      let r := allocateGo a numbersDir env draws (i + 1) fuel
      (r.1, r.2 + 1)

/-- allocate (src/allocator.go): try maxRetries = 5 * (max - min + 1) random
candidates. (The source draws each candidate as a.rng.Intn(interval) +
a.minUID and creates the marker under a.uidsDir; at the only call site
numbersDir, min and max are exactly a.uidsDir, a.minUID and a.maxUID.) -/
def allocate (a : Allocator) (numbersDir : String) (min max : Int)
    (env : Nat → Int → AttemptOutcome) (draws : Nat → Nat) :
    Except String Int × Nat :=
  allocateGo a numbersDir env draws 0 (5 * (max - min + 1)).toNat

/-- ReserveUID (src/allocator.go): allocate from a.uidsDir over
[a.minUID, a.maxUID]. -/
def ReserveUID (a : Allocator) (env : Nat → Int → AttemptOutcome)
    (draws : Nat → Nat) : Except String Int × Nat :=
  allocate a a.uidsDir a.minUID a.maxUID env draws

/-- Interleaved execution of exclusive-create attempts by any number of
concurrent callers sharing one storage directory: `trace` is the global
order of the atomic os.OpenFile(O_CREATE|O_EXCL) calls, each attempt being
(caller, candidate uid); `taken` is the set of marker files present.
An attempt succeeds — and its marker appears atomically — iff the marker
does not yet exist. Returns the successful claims in order, and the final
marker set. A caller's ReserveUID result is the uid of its first successful
attempt in this trace. -/
def runTrace : List (Nat × Int) → List Int → List (Nat × Int) × List Int
  | [], taken => ([], taken)
  | (c, n) :: rest, taken =>
    if n ∈ taken then runTrace rest taken
    else
      let r := runTrace rest (n :: taken)
      ((c, n) :: r.1, r.2)

/-- spec-side definition, for the refinement claims: the subnet computed by
the documented algorithm with the truncating shift — shift = ((uid -
minUID) mod 2^32) mod availableSubnets; anchor address divided by 4, plus
shift, times 4, as 32-bit arithmetic; fixed /30 mask. -/
def specSubnet (a : Allocator) (uid : Int) : IPNet :=
  ⟨(a.basePrivateIP.ip / 4 + uidShift a uid) * 4 % 2 ^ 32, 30⟩

/-- spec-side definition, following claim C5 as literally stated: shift =
(uid - minUID) mod availableSubnets with the plain mathematical modulus
(no 32-bit truncation of the difference). -/
def specSubnetIntMod (a : Allocator) (uid : Int) : IPNet :=
  ⟨(a.basePrivateIP.ip / 4
      + ((uid - a.minUID) % (a.availableSubnets : Int)).toNat) * 4 % 2 ^ 32,
    30⟩

/-- The default allocator configuration: DefaultPrivateSubnet and the given
uid bounds. -/
def defaultAllocator (minUID maxUID : Int) : Allocator :=
  mkAllocator "/tmp" DefaultPrivateSubnet.ip DefaultPrivateSubnet.ones
    minUID maxUID

/-! ## Arithmetic helper lemmas -/

lemma pow32_split (p : Nat) (hp : p ≤ 30) : 2 ^ (32 - p) = 4 * 2 ^ (30 - p) := by
  have h : 32 - p = 2 + (30 - p) := by omega
  rw [h, pow_add]
  norm_num

lemma pow_mul_pow32 (p : Nat) (hp : p ≤ 32) : 2 ^ (32 - p) * 2 ^ p = 2 ^ 32 := by
  rw [← pow_add]
  congr 1
  omega

lemma subnetsToSkip_eq (ip p : Nat) (hp : p ≤ 32) :
    subnetsToSkip ip p = ip % 2 ^ (32 - p) / 4 := by
  unfold subnetsToSkip
  rw [← pow_mul_pow32 p hp, Nat.mul_mod_mul_right,
    Nat.mul_div_cancel _ (by positivity)]

lemma skip_lt (ip p : Nat) (hp : p ≤ 30) :
    subnetsToSkip ip p < 2 ^ (30 - p) := by
  rw [subnetsToSkip_eq ip p (by omega)]
  have h1 : ip % 2 ^ (32 - p) < 2 ^ (32 - p) := Nat.mod_lt _ (by positivity)
  have h2 := pow32_split p hp
  refine (Nat.div_lt_iff_lt_mul (by norm_num)).mpr ?_
  omega

lemma availableSubnets_mk (w : String) (ip p : Nat) (minU maxU : Int)
    (hp : p ≤ 30) :
    (mkAllocator w ip p minU maxU).availableSubnets
      = 2 ^ (30 - p) - subnetsToSkip ip p := by
  have h1 : totalSubnets p = 2 ^ (30 - p) := if_pos hp
  have h2 := skip_lt ip p hp
  have h3 : (2 : Nat) ^ (30 - p) ≤ 2 ^ 30 :=
    Nat.pow_le_pow_right (by norm_num) (by omega)
  have h5 : (2 : Nat) ^ 30 < 2 ^ 32 := by norm_num
  show sub32 (totalSubnets p) (subnetsToSkip ip p) = _
  unfold sub32
  rw [h1]
  have h4 : 2 ^ 32 + 2 ^ (30 - p) - subnetsToSkip ip p
      = 2 ^ 32 + (2 ^ (30 - p) - subnetsToSkip ip p) := by omega
  rw [h4, Nat.add_mod_left, Nat.mod_eq_of_lt (by omega)]

lemma availableSubnets_pos (w : String) (ip p : Nat) (minU maxU : Int)
    (hp : p ≤ 30) :
    0 < (mkAllocator w ip p minU maxU).availableSubnets := by
  rw [availableSubnets_mk w ip p minU maxU hp]
  have := skip_lt ip p hp
  omega

lemma availableSubnets_zero (w : String) (ip p : Nat) (minU maxU : Int)
    (hp : 31 ≤ p) :
    (mkAllocator w ip p minU maxU).availableSubnets = 0 := by
  have ht : totalSubnets p = 0 := if_neg (by omega)
  have hs : subnetsToSkip ip p = 0 := by
    by_cases h32 : p ≤ 32
    · rw [subnetsToSkip_eq ip p h32]
      apply Nat.div_eq_of_lt
      have h1 : ip % 2 ^ (32 - p) < 2 ^ (32 - p) := Nat.mod_lt _ (by positivity)
      have h2 : (2 : Nat) ^ (32 - p) ≤ 2 ^ 1 :=
        Nat.pow_le_pow_right (by norm_num) (by omega)
      norm_num at h2
      omega
    · unfold subnetsToSkip
      have hdvd : (2 : Nat) ^ 32 ∣ ip * 2 ^ p :=
        Dvd.dvd.mul_left (pow_dvd_pow 2 (by omega)) ip
      obtain ⟨k, hk⟩ := hdvd
      rw [hk, Nat.mul_mod_right]
      simp
  show sub32 (totalSubnets p) (subnetsToSkip ip p) = 0
  rw [ht, hs]
  unfold sub32
  norm_num

/-- The arithmetic core: for a supernet of at most 30 mask bits and a shift
below the available-subnet count, the uint32 derivation
(anchor / 4 + shift) * 4 does not wrap, and the result has the same
supernet-masked value as the anchor. -/
lemma core_no_wrap (ip p s : Nat) (h32 : ip < 2 ^ 32) (hp : p ≤ 30)
    (hs : s < 2 ^ (30 - p) - ip % 2 ^ (32 - p) / 4) :
    (ip / 4 + s) % 2 ^ 32 * 4 % 2 ^ 32 = (ip / 4 + s) * 4
    ∧ maskCIDR p ((ip / 4 + s) * 4) = maskCIDR p ip := by
  set N := 2 ^ (32 - p) with hN
  set t := 2 ^ (30 - p) with ht
  have hN4 : N = 4 * t := pow32_split p hp
  have hNpos : 0 < N := by positivity
  set q := ip / N with hq
  set r := ip % N with hr
  have hqr : N * q + r = ip := Nat.div_add_mod ip N
  have hrN : r < N := Nat.mod_lt _ hNpos
  have hdiv : ip / 4 = t * q + r / 4 := by
    conv_lhs => rw [← hqr]
    have h1 : N * q + r = 4 * (t * q) + r := by rw [hN4]; ring
    rw [h1, Nat.mul_add_div (by norm_num)]
  have hq_lt : q < 2 ^ p := by
    rw [hq]
    refine (Nat.div_lt_iff_lt_mul hNpos).mpr ?_
    calc ip < 2 ^ 32 := h32
    _ = N * 2 ^ p := (pow_mul_pow32 p (by omega)).symm
    _ = 2 ^ p * N := mul_comm _ _
  have htq : t * q + t ≤ 2 ^ 30 := by
    have h1 : t * (q + 1) ≤ t * 2 ^ p := Nat.mul_le_mul_left t hq_lt
    have h2 : t * 2 ^ p = 2 ^ 30 := by
      rw [ht, ← pow_add]
      congr 1
      omega
    have h3 : t * (q + 1) = t * q + t := by ring
    omega
  have hr4t : r / 4 < t := by
    refine (Nat.div_lt_iff_lt_mul (by norm_num)).mpr ?_
    omega
  have hbound : ip / 4 + s < 2 ^ 30 := by omega
  have h3032 : (2 : Nat) ^ 30 < 2 ^ 32 := by norm_num
  have hlt32 : ip / 4 + s < 2 ^ 32 := by omega
  have h3032m : (2 : Nat) ^ 30 * 4 = 2 ^ 32 := by norm_num
  have hmul : (ip / 4 + s) * 4 < 2 ^ 32 := by omega
  refine ⟨by rw [Nat.mod_eq_of_lt hlt32, Nat.mod_eq_of_lt hmul], ?_⟩
  have hNq : N * q = 4 * (t * q) := by rw [hN4]; ring
  have hdecomp : (ip / 4 + s) * 4 = N * q + (r / 4 + s) * 4 := by
    rw [hdiv]
    omega
  have hrs : (r / 4 + s) * 4 < N := by omega
  have hmask1 : maskCIDR p ((ip / 4 + s) * 4) = q * N := by
    unfold maskCIDR
    rw [← hN, hdecomp, Nat.mul_add_div hNpos, Nat.div_eq_of_lt hrs,
      Nat.add_zero]
  have hmask2 : maskCIDR p ip = q * N := by
    unfold maskCIDR
    rw [← hN, ← hq]
  rw [hmask1, hmask2]

/-- The address derived for any uid by an allocator built with a mask of at
most 30 bits never wraps and always passes the supernet containment check. -/
lemma derivedIP_mk (w : String) (ip p : Nat) (minU maxU uid : Int)
    (h32 : ip < 2 ^ 32) (hp : p ≤ 30) :
    derivedIP (mkAllocator w ip p minU maxU) uid
        = (ip / 4 + uidShift (mkAllocator w ip p minU maxU) uid) * 4
    ∧ (mkAllocator w ip p minU maxU).privateSubnet.contains
        (derivedIP (mkAllocator w ip p minU maxU) uid) = true := by
  have hSpos := availableSubnets_pos w ip p minU maxU hp
  have hslt : uidShift (mkAllocator w ip p minU maxU) uid
      < (mkAllocator w ip p minU maxU).availableSubnets :=
    Nat.mod_lt _ hSpos
  have hs' : uidShift (mkAllocator w ip p minU maxU) uid
      < 2 ^ (30 - p) - ip % 2 ^ (32 - p) / 4 := by
    rw [availableSubnets_mk w ip p minU maxU hp,
      subnetsToSkip_eq ip p (by omega)] at hslt
    exact hslt
  obtain ⟨h1, h2⟩ :=
    core_no_wrap ip p (uidShift (mkAllocator w ip p minU maxU) uid) h32 hp hs'
  have hd : derivedIP (mkAllocator w ip p minU maxU) uid
      = (ip / 4 + uidShift (mkAllocator w ip p minU maxU) uid) * 4 := h1
  refine ⟨hd, ?_⟩
  show (maskCIDR p (derivedIP (mkAllocator w ip p minU maxU) uid)
      == maskCIDR p ip) = true
  rw [hd, h2, beq_self_eq_true]

/-! ## Claim C1 -/

/-- C1: the claim says that during the probe loop only "marker already
exists" is absorbed and retried, and that any other filesystem error during
the exclusive-create attempt is returned immediately. The code instead
absorbs every create error: with every attempt failing with a permission
error (never ErrExist), the loop still runs all 5*(max-min+1) = 10 attempts
and returns the capacity-exhaustion error instead of the permission error;
and with a permission error on the first attempt only, the loop goes on to
return a uid as if nothing had failed. -/
theorem c1_create_errors_absorbed :
    ReserveUID (mkAllocator "/tmp" DefaultPrivateSubnet.ip 12 0 1)
        (fun _ _ => .otherErr "open /tmp/uids/0: permission denied")
        (fun _ => 0)
      = (.error ("no free number available at " ++ "/tmp/uids"), 10)
    ∧ ReserveUID (mkAllocator "/tmp" DefaultPrivateSubnet.ip 12 0 1)
        (fun i _ => if i == 0 then
            .otherErr "open /tmp/uids/0: permission denied" else .ok)
        (fun _ => 0)
      = (.ok 0, 2) :=
  ⟨rfl, rfl⟩

/-! ## Claim C2 -/

/-- C2 counterexample: a /31 supernet yields an available subnet count of
zero, yet NewAllocator succeeds — there is no construction-time
validation. -/
theorem c2_counterexample :
    NewAllocator "/tmp" 167772160 31 0 5
        = .ok (mkAllocator "/tmp" 167772160 31 0 5)
    ∧ (mkAllocator "/tmp" 167772160 31 0 5).availableSubnets = 0 :=
  ⟨rfl, by decide⟩

/-- C2 (amended): NewAllocator never fails for configuration reasons — its
pure part always succeeds, even when the supernet/anchor combination yields
zero available subnets; and the anchor always lies inside the supernet,
because the supernet is derived from the anchor by masking (Contains masks
its argument and compares with the stored, already-masked, network
address). -/
theorem c2_no_construction_validation (w : String) (ip p : Nat)
    (minU maxU : Int) :
    NewAllocator w ip p minU maxU = .ok (mkAllocator w ip p minU maxU)
    ∧ (mkAllocator w ip p minU maxU).privateSubnet.contains ip = true := by
  refine ⟨rfl, ?_⟩
  show (maskCIDR p ip == maskCIDR p ip) = true
  exact beq_self_eq_true _

/-! ## Claim C3 -/

/-- C3 counterexample: (a) an allocator successfully returned by
NewAllocator (supernet 10.0.0.0/31) has availableSubnets = 0 and
privateNetForUID panics on it (integer division by zero), so the function
is not total on every successfully constructed allocator; (b) on the
default configuration, uids -1 and 262136 have the same
(uid - minUID) mod availableSubnets residue (the claim's stated argument),
yet privateNetForUID maps them to different subnets, so the function does
not factor through that residue. -/
theorem c3_counterexample :
    (NewAllocator "/tmp" 167772160 31 0 5
        = .ok (mkAllocator "/tmp" 167772160 31 0 5)
      ∧ privateNetForUID (mkAllocator "/tmp" 167772160 31 0 5) 0
        = .divByZero)
    ∧ (((-1 : Int) - (defaultAllocator 0 262143).minUID)
          % ((defaultAllocator 0 262143).availableSubnets : Int)
        = ((262136 : Int) - (defaultAllocator 0 262143).minUID)
          % ((defaultAllocator 0 262143).availableSubnets : Int)
      ∧ privateNetForUID (defaultAllocator 0 262143) (-1)
          ≠ privateNetForUID (defaultAllocator 0 262143) 262136) :=
  ⟨⟨rfl, by decide⟩, by decide, by decide⟩

/-- C3 (amended): for every allocator built by NewAllocator whose
availableSubnets is nonzero, privateNetForUID is total — it never reaches
the divide-by-zero panic — and is a deterministic function of
(((uid - minUID) mod 2^32) mod availableSubnets) together with the
immutable configuration; it performs no probing or mutation (it is a pure
function of the allocator value). -/
theorem c3_total_function_of_truncated_shift (w : String) (ip p : Nat)
    (minU maxU : Int)
    (hS : (mkAllocator w ip p minU maxU).availableSubnets ≠ 0) :
    (∀ uid : Int,
        privateNetForUID (mkAllocator w ip p minU maxU) uid ≠ .divByZero)
    ∧ ∀ u1 u2 : Int,
        uidShift (mkAllocator w ip p minU maxU) u1
            = uidShift (mkAllocator w ip p minU maxU) u2 →
        privateNetForUID (mkAllocator w ip p minU maxU) u1
            = privateNetForUID (mkAllocator w ip p minU maxU) u2 := by
  constructor
  · intro uid
    unfold privateNetForUID
    rw [if_neg hS]
    split <;> simp
  · intro u1 u2 h
    unfold privateNetForUID derivedIP
    rw [h]

/-- C3 witness: the amended statement applied to the default
configuration, at uid -7 and at the pair (3, 262140) whose truncated
shifts agree. -/
theorem c3_witness :
    privateNetForUID (mkAllocator "/tmp" DefaultPrivateSubnet.ip 12 0 262143)
        (-7) ≠ .divByZero
    ∧ privateNetForUID (mkAllocator "/tmp" DefaultPrivateSubnet.ip 12 0 262143)
        3
      = privateNetForUID (mkAllocator "/tmp" DefaultPrivateSubnet.ip 12 0 262143)
        262140 :=
  ⟨(c3_total_function_of_truncated_shift "/tmp" DefaultPrivateSubnet.ip 12
      0 262143 (by decide)).1 (-7),
   (c3_total_function_of_truncated_shift "/tmp" DefaultPrivateSubnet.ip 12
      0 262143 (by decide)).2 3 262140 (by decide)⟩

/-! ## Claim C4 -/

lemma runTrace_nodup_aux (trace : List (Nat × Int)) (taken : List Int) :
    ((runTrace trace taken).1.map Prod.snd).Nodup
    ∧ ∀ n : Int, n ∈ (runTrace trace taken).1.map Prod.snd → n ∉ taken := by
  induction trace generalizing taken with
  | nil => simp [runTrace]
  | cons hd rest ih =>
    obtain ⟨c, n⟩ := hd
    by_cases hmem : n ∈ taken
    · simp only [runTrace, if_pos hmem]
      exact ⟨(ih taken).1, fun m hm => (ih taken).2 m hm⟩
    · simp only [runTrace, if_neg hmem]
      obtain ⟨ih1, ih2⟩ := ih (n :: taken)
      refine ⟨?_, ?_⟩
      · simp only [List.map_cons]
        refine List.nodup_cons.mpr ⟨?_, ih1⟩
        intro hin
        exact ih2 n hin (List.mem_cons_self n taken)
      · intro m hm
        simp only [List.map_cons, List.mem_cons] at hm
        rcases hm with hm | hm
        · subst hm
          exact hmem
        · intro hmt
          exact ih2 m hm (List.mem_cons_of_mem n hmt)

/-- C4 (amended): in any interleaved execution of exclusive-create attempts
by any number of concurrent callers sharing one storage directory, the
successfully claimed uids are pairwise distinct — the atomic
create-if-absent of the marker file guarantees that no two concurrent
reservations ever claim the same UID (each caller returns the uid of its
successful attempt). The original claim's guarantee that all N ≤
(max-min+1) callers also succeed does not hold, see the counterexample. -/
theorem c4_concurrent_claims_distinct (trace : List (Nat × Int))
    (taken : List Int) :
    ((runTrace trace taken).1.map Prod.snd).Nodup :=
  (runTrace_nodup_aux trace taken).1

/-- C4 counterexample: two callers, bounds [0, 1], so N = 2 = max-min+1.
Caller A's first probe draws 0 and reserves uid 0. Caller B then draws 0 on
all of its 5*(max-min+1) = 10 probes — a possible output sequence of
rng.Intn(2) — finds the marker taken each time, and fails with the
capacity error even though uid 1 is free; so not all N calls succeed. -/
theorem c4_counterexample :
    ReserveUID (mkAllocator "/tmp" DefaultPrivateSubnet.ip 12 0 1)
        (fun _ _ => .ok) (fun _ => 0)
      = (.ok 0, 1)
    ∧ ReserveUID (mkAllocator "/tmp" DefaultPrivateSubnet.ip 12 0 1)
        (fun _ n => if n == 0 then .exist else .ok) (fun _ => 0)
      = (.error ("no free number available at " ++ "/tmp/uids"), 10) :=
  ⟨rfl, rfl⟩

/-! ## Claim C5 -/

/-- C5 counterexample: on the default configuration, at uid -1 the subnet
the code returns is not the one the claim's formula (with the plain
mathematical (uid - minUID) mod availableSubnets shift) produces: the code
first truncates uid - minUID to 32 bits, giving shift 114687 instead of
262136. -/
theorem c5_counterexample :
    privateNetForUID (defaultAllocator 0 262143) (-1)
        = .ok ⟨2887188504, 30⟩
    ∧ specSubnetIntMod (defaultAllocator 0 262143) (-1)
        = ⟨2887778300, 30⟩
    ∧ privateNetForUID (defaultAllocator 0 262143) (-1)
        ≠ .ok (specSubnetIntMod (defaultAllocator 0 262143) (-1)) :=
  ⟨by decide, by decide, by decide⟩

/-- C5 (amended): for every uid, whenever privateNetForUID returns a
subnet, it equals the documented algorithm's result with the truncating
shift — shift = ((uid - minUID) mod 2^32) mod availableSubnets, anchor
address divided by 4, plus shift, times 4 (32-bit arithmetic), with a /30
mask. -/
theorem c5_subnet_matches_documented_algorithm (w : String) (ip p : Nat)
    (minU maxU uid : Int) (net : IPNet)
    (h : privateNetForUID (mkAllocator w ip p minU maxU) uid = .ok net) :
    net = specSubnet (mkAllocator w ip p minU maxU) uid := by
  unfold privateNetForUID at h
  by_cases hS : (mkAllocator w ip p minU maxU).availableSubnets = 0
  · rw [if_pos hS] at h
    exact absurd h (by simp)
  · rw [if_neg hS] at h
    split at h
    · injection h with h'
      subst h'
      unfold specSubnet
      have hmod : derivedIP (mkAllocator w ip p minU maxU) uid
          = (ip / 4 + uidShift (mkAllocator w ip p minU maxU) uid) * 4
            % 2 ^ 32 := by
        show (ip / 4 + uidShift (mkAllocator w ip p minU maxU) uid)
            % 2 ^ 32 * 4 % 2 ^ 32 = _
        conv_rhs => rw [Nat.mul_mod]
        norm_num
      rw [hmod]
      rfl
    · exact absurd h (by simp)

/-- C5 witness: the amended statement evaluated on the default
configuration at uid 5 (shift 5, five /30 blocks past the anchor). -/
theorem c5_witness :
    (⟨2886729776, 30⟩ : IPNet)
      = specSubnet (mkAllocator "/tmp" DefaultPrivateSubnet.ip 12 0 262143)
          5 :=
  c5_subnet_matches_documented_algorithm "/tmp" DefaultPrivateSubnet.ip 12
    0 262143 5 ⟨2886729776, 30⟩ (by decide)

/-! ## Claim C6 -/

/-- C6: availableSubnets is computed at construction as
2^(30 - maskSize) minus the number of /30 blocks before the anchor inside
the supernet (the anchor address with the supernet's mask bits cut off,
divided by 4); on the default configuration (mask /12, anchor 172.16.0.28,
28 addresses past the supernet base) that is 2^18 - 7; and SubnetFor(minUID)
on the default configuration is the anchor itself with a /30 mask. -/
theorem c6_accounting (w : String) (minU maxU : Int) (ip p : Nat)
    (hp : p ≤ 30) :
    (mkAllocator w ip p minU maxU).availableSubnets
        = 2 ^ (30 - p) - ip % 2 ^ (32 - p) / 4
    ∧ (defaultAllocator minU maxU).availableSubnets = 2 ^ 18 - 7
    ∧ privateNetForUID (defaultAllocator minU maxU) minU
        = .ok ⟨DefaultPrivateSubnet.ip, 30⟩ := by
  refine ⟨?_, ?_, ?_⟩
  · rw [availableSubnets_mk w ip p minU maxU hp,
      subnetsToSkip_eq ip p (by omega)]
  · show sub32 (totalSubnets 12) (subnetsToSkip DefaultPrivateSubnet.ip 12)
        = 2 ^ 18 - 7
    decide
  · have hsh : uidShift (defaultAllocator minU maxU) minU = 0 := by
      unfold uidShift defaultAllocator mkAllocator
      simp
    have hS : (defaultAllocator minU maxU).availableSubnets = 262137 := by
      show sub32 (totalSubnets 12) (subnetsToSkip DefaultPrivateSubnet.ip 12)
          = 262137
      decide
    have hd : derivedIP (defaultAllocator minU maxU) minU = 2886729756 := by
      show (2886729756 / 4 + uidShift (defaultAllocator minU maxU) minU)
          % 2 ^ 32 * 4 % 2 ^ 32 = 2886729756
      rw [hsh]
      decide
    have hcon : (defaultAllocator minU maxU).privateSubnet.contains
        2886729756 = true := by
      show (maskCIDR 12 2886729756 == maskCIDR 12 DefaultPrivateSubnet.ip)
          = true
      decide
    have hones : (defaultAllocator minU maxU).basePrivateIP.ones = 30 := rfl
    simp only [privateNetForUID, hS, hd, hcon, hones]
    decide

/-- C6 witness: the accounting formula instantiated on the default
configuration. -/
theorem c6_witness :
    (mkAllocator "/tmp" DefaultPrivateSubnet.ip 12 0 262143).availableSubnets
      = 2 ^ (30 - 12) - DefaultPrivateSubnet.ip % 2 ^ (32 - 12) / 4 :=
  (c6_accounting "/tmp" 0 262143 DefaultPrivateSubnet.ip 12 (by norm_num)).1

/-! ## Claim C7 -/

/-- C7 counterexample: uids -1 and 4294967295 (minUID 0) have different
(uid - minUID) mod availableSubnetCount residues in the claim's
mathematical sense — 262136 and 114687 — yet both calls succeed and return
the same /30 network address, because the code truncates the difference to
32 bits first and 4294967295 = -1 (mod 2^32). -/
theorem c7_counterexample :
    ((-1 : Int) - (defaultAllocator 0 262143).minUID)
        % ((defaultAllocator 0 262143).availableSubnets : Int)
      ≠ ((4294967295 : Int) - (defaultAllocator 0 262143).minUID)
        % ((defaultAllocator 0 262143).availableSubnets : Int)
    ∧ privateNetForUID (defaultAllocator 0 262143) (-1)
        = .ok ⟨2887188504, 30⟩
    ∧ privateNetForUID (defaultAllocator 0 262143) 4294967295
        = .ok ⟨2887188504, 30⟩ :=
  ⟨by decide, by decide, by decide⟩

/-- C7 (amended): privateNetForUID is deterministic (calling it twice with
identical configuration gives identical results), and whenever two uids
have different truncated residues ((uid - minUID) mod 2^32) mod
availableSubnets and both calls succeed, the returned /30 network addresses
are distinct. -/
theorem c7_deterministic_and_injective (w : String) (ip p : Nat)
    (minU maxU u1 u2 : Int) (n1 n2 : IPNet)
    (h32 : ip < 2 ^ 32)
    (h1 : privateNetForUID (mkAllocator w ip p minU maxU) u1 = .ok n1)
    (h2 : privateNetForUID (mkAllocator w ip p minU maxU) u2 = .ok n2)
    (hne : uidShift (mkAllocator w ip p minU maxU) u1
        ≠ uidShift (mkAllocator w ip p minU maxU) u2) :
    privateNetForUID (mkAllocator w ip p minU maxU) u1
        = privateNetForUID (mkAllocator w ip p minU maxU) u1
    ∧ n1.ip ≠ n2.ip := by
  refine ⟨rfl, ?_⟩
  have hS : (mkAllocator w ip p minU maxU).availableSubnets ≠ 0 := by
    intro h0
    unfold privateNetForUID at h1
    rw [if_pos h0] at h1
    exact absurd h1 (by simp)
  have hp : p ≤ 30 := by
    by_contra hgt
    exact hS (availableSubnets_zero w ip p minU maxU (by omega))
  have e1 : n1.ip = derivedIP (mkAllocator w ip p minU maxU) u1 := by
    unfold privateNetForUID at h1
    rw [if_neg hS] at h1
    split at h1
    · injection h1 with h'
      rw [← h']
    · exact absurd h1 (by simp)
  have e2 : n2.ip = derivedIP (mkAllocator w ip p minU maxU) u2 := by
    unfold privateNetForUID at h2
    rw [if_neg hS] at h2
    split at h2
    · injection h2 with h'
      rw [← h']
    · exact absurd h2 (by simp)
  obtain ⟨d1, _⟩ := derivedIP_mk w ip p minU maxU u1 h32 hp
  obtain ⟨d2, _⟩ := derivedIP_mk w ip p minU maxU u2 h32 hp
  intro heq
  apply hne
  have hmul : (ip / 4 + uidShift (mkAllocator w ip p minU maxU) u1) * 4
      = (ip / 4 + uidShift (mkAllocator w ip p minU maxU) u2) * 4 := by
    rw [← d1, ← d2, ← e1, ← e2, heq]
  omega

/-- C7 witness: on the default configuration, uids 0 and 1 both succeed
with shifts 0 and 1, so their /30 network addresses differ. -/
theorem c7_witness : (2886729756 : Nat) ≠ 2886729760 :=
  (c7_deterministic_and_injective "/tmp" DefaultPrivateSubnet.ip 12
    0 262143 0 1 ⟨2886729756, 30⟩ ⟨2886729760, 30⟩
    (by decide) (by decide) (by decide) (by decide)).2

/-! ## Claim C8 -/

lemma allocateGo_attempts_le (a : Allocator) (dir : String)
    (env : Nat → Int → AttemptOutcome) (draws : Nat → Nat) :
    ∀ fuel i, (allocateGo a dir env draws i fuel).2 ≤ fuel := by
  intro fuel
  induction fuel with
  | zero =>
    intro i
    simp [allocateGo]
  | succ f ih =>
    intro i
    simp only [allocateGo]
    cases env i ((draws i : Int) + a.minUID) <;> simp only []
    · omega
    · omega
    · have := ih (i + 1)
      omega
    · have := ih (i + 1)
      omega

lemma allocateGo_all_exist (a : Allocator) (dir : String)
    (env : Nat → Int → AttemptOutcome) (draws : Nat → Nat)
    (hall : ∀ i n, env i n = .exist) :
    ∀ fuel i, (allocateGo a dir env draws i fuel).1
      = .error ("no free number available at " ++ dir) := by
  intro fuel
  induction fuel with
  | zero =>
    intro i
    rfl
  | succ f ih =>
    intro i
    simp only [allocateGo, hall i ((draws i : Int) + a.minUID)]
    exact ih (i + 1)

/-- C8: the reservation loop performs at most 5 * (maxUID - minUID + 1)
exclusive-create attempts, and when every attempt collides with an existing
marker it fails with the capacity-exhaustion error naming the storage
directory. -/
theorem c8_retry_budget (a : Allocator) (env : Nat → Int → AttemptOutcome)
    (draws : Nat → Nat) (hminmax : a.minUID ≤ a.maxUID)
    (hall : ∀ i n, env i n = .exist) :
    ((ReserveUID a env draws).2 : Int) ≤ 5 * (a.maxUID - a.minUID + 1)
    ∧ (ReserveUID a env draws).1
        = .error ("no free number available at " ++ a.uidsDir) := by
  constructor
  · have h1 := allocateGo_attempts_le a a.uidsDir env draws
      (5 * (a.maxUID - a.minUID + 1)).toNat 0
    have h2 : (0 : Int) ≤ 5 * (a.maxUID - a.minUID + 1) := by omega
    calc ((ReserveUID a env draws).2 : Int)
        ≤ (((5 * (a.maxUID - a.minUID + 1)).toNat : Nat) : Int) := by
          exact_mod_cast h1
    _ = 5 * (a.maxUID - a.minUID + 1) := Int.toNat_of_nonneg h2
  · exact allocateGo_all_exist a a.uidsDir env draws hall
      (5 * (a.maxUID - a.minUID + 1)).toNat 0

/-- C8 witness: bounds [0, 1] with every probe colliding — the loop stops
after its 10-attempt budget and reports the storage directory. -/
theorem c8_witness :
    ((ReserveUID (mkAllocator "/tmp" DefaultPrivateSubnet.ip 12 0 1)
        (fun _ _ => .exist) (fun _ => 0)).2 : Int) ≤ 5 * (1 - 0 + 1)
    ∧ (ReserveUID (mkAllocator "/tmp" DefaultPrivateSubnet.ip 12 0 1)
        (fun _ _ => .exist) (fun _ => 0)).1
      = .error ("no free number available at "
          ++ (mkAllocator "/tmp" DefaultPrivateSubnet.ip 12 0 1).uidsDir) :=
  c8_retry_budget (mkAllocator "/tmp" DefaultPrivateSubnet.ip 12 0 1)
    (fun _ _ => .exist) (fun _ => 0) (by decide) (fun _ _ => rfl)

/-! ## Claim C9 -/

/-- C9: whenever privateNetForUID succeeds the returned network address is
inside the configured supernet and /30-aligned (its low 2 bits are zero);
and when the derived address falls outside the supernet the function
returns an error, never an out-of-supernet subnet. (Stated for any uid,
which covers every UID in [minUID, maxUID]; the availableSubnets ≠ 0
hypothesis excludes the divide-by-zero panic, which is not a success
either.) -/
theorem c9_containment_and_alignment (a : Allocator) (uid : Int)
    (hS : a.availableSubnets ≠ 0) :
    (∀ net : IPNet, privateNetForUID a uid = .ok net →
        a.privateSubnet.contains net.ip = true ∧ net.ip % 4 = 0)
    ∧ (a.privateSubnet.contains (derivedIP a uid) = false →
        privateNetForUID a uid = .err) := by
  constructor
  · intro net h
    unfold privateNetForUID at h
    rw [if_neg hS] at h
    split at h
    case isTrue hc =>
      injection h with h'
      subst h'
      refine ⟨hc, ?_⟩
      show (a.basePrivateIP.ip / 4 + uidShift a uid) % 2 ^ 32 * 4 % 2 ^ 32
          % 4 = 0
      have h4 : (4 : Nat) ∣ 2 ^ 32 := by norm_num
      have hd : (4 : Nat)
          ∣ (a.basePrivateIP.ip / 4 + uidShift a uid) % 2 ^ 32 * 4 % 2 ^ 32 :=
        (Nat.dvd_mod_iff h4).mpr
          (dvd_mul_left 4 ((a.basePrivateIP.ip / 4 + uidShift a uid) % 2 ^ 32))
      omega
    case isFalse => exact absurd h (by simp)
  · intro hc
    unfold privateNetForUID
    rw [if_neg hS, if_neg (by simp [hc])]

/-- C9 witness: the default configuration at uid 0 — the anchor subnet is
inside 172.16.0.0/12 and its address is /30-aligned. -/
theorem c9_witness :
    (mkAllocator "/tmp" DefaultPrivateSubnet.ip 12 0 262143).privateSubnet.contains
        2886729756 = true
    ∧ (2886729756 : Nat) % 4 = 0 :=
  (c9_containment_and_alignment
      (mkAllocator "/tmp" DefaultPrivateSubnet.ip 12 0 262143) 0
      (by decide)).1
    ⟨2886729756, 30⟩ (by decide)

/-! ## Claim C10 -/

/-- C10: privateNetForUID accepts any uid without range checking; for
uid < minUID the difference is truncated to 32 bits, so the shift is
((uid - minUID) mod 2^32) mod availableSubnets — the wrap happens before
the reduction — and a subnet is still returned (no out-of-range error):
the derived address always passes the supernet containment check for an
allocator built by NewAllocator. -/
theorem c10_negative_uid_wraps (w : String) (ip p : Nat)
    (minU maxU uid : Int) (h32 : ip < 2 ^ 32) (hp : p ≤ 30)
    (hneg : uid < minU) :
    privateNetForUID (mkAllocator w ip p minU maxU) uid
        = .ok ⟨derivedIP (mkAllocator w ip p minU maxU) uid, 30⟩
    ∧ uidShift (mkAllocator w ip p minU maxU) uid
        = ((uid - minU) % (2 ^ 32 : Int)).toNat
            % (mkAllocator w ip p minU maxU).availableSubnets := by
  have hS := availableSubnets_pos w ip p minU maxU hp
  obtain ⟨hd, hc⟩ := derivedIP_mk w ip p minU maxU uid h32 hp
  refine ⟨?_, rfl⟩
  unfold privateNetForUID
  rw [if_neg (by omega), if_pos hc]
  rfl

/-- C10 witness: default configuration, uid -1 below minUID 0 — a subnet
is returned. -/
theorem c10_witness :
    privateNetForUID (mkAllocator "/tmp" DefaultPrivateSubnet.ip 12 0 5)
        (-1)
      = .ok ⟨derivedIP (mkAllocator "/tmp" DefaultPrivateSubnet.ip 12 0 5)
          (-1), 30⟩ :=
  (c10_negative_uid_wraps "/tmp" DefaultPrivateSubnet.ip 12 0 5 (-1)
    (by decide) (by decide) (by decide)).1

end Hsup
